import Mathlib

/-!
Verification of the timelapse capture tool (`timelapse.py`).

The development shallowly embeds the two core pieces of the program:

* `resolve_device`, which maps a user-supplied selector string to an
  OpenCV device index over a catalog of enumerated cameras; and
* the recording loop of the `start` command, which repeatedly reads a
  frame from the opened device, writes it under a zero-padded filename,
  and stops on an operator interrupt or a failed read.

External collaborators (the OpenCV capture backend, `cv2.imwrite`,
`time.sleep`, the terminal status renderer) are modeled as opaque
oracles: per-iteration boolean outcomes for frame reads and writes, a
boolean stop flag sampled at the top of each loop iteration, and a
rational sleep interval whose only observable behavior is that
`time.sleep` raises `ValueError` exactly when its argument is negative.
-/

/-- A camera descriptor as produced by `cv2_enumerate_cameras.enumerate_cameras()`:
`index` is the backend device id passed to `cv2.VideoCapture`, `name` is the
human-readable name (possibly absent or empty). -/
structure Camera where
  index : Nat
  name : Option String
deriving DecidableEq

/-- The two failure shapes `resolve_device` can raise (`click.ClickException`),
distinguished by which `raise` site produced them, each carrying the message
string built at that site. -/
inductive ResolveError where
  | noDevicesFound (msg : String)
  | deviceNotFound (msg : String)
deriving DecidableEq

instance {ε α : Type} [DecidableEq ε] [DecidableEq α] : DecidableEq (Except ε α) :=
  fun x y =>
    match x, y with
    | .ok a, .ok b =>
      if h : a = b then isTrue (by rw [h]) else isFalse (by simp [h])
    | .error a, .error b =>
      if h : a = b then isTrue (by rw [h]) else isFalse (by simp [h])
    | .ok _, .error _ => isFalse (fun h => Except.noConfusion h)
    | .error _, .ok _ => isFalse (fun h => Except.noConfusion h)

/-- Value of a non-empty run of ASCII digits, most significant first
(`none` when the list is empty or contains a non-digit). -/
def digitsVal? (cs : List Char) : Option Nat :=
  if cs.isEmpty then none
  else if cs.all Char.isDigit then
    some (cs.foldl (fun acc c => acc * 10 + (c.toNat - 48)) 0)
  else none

/-- Embeds Python `int(device_input)`: an optional `+`/`-` sign followed by a
non-empty digit run.  (Whitespace padding and `_` digit grouping, which Python
also accepts, are not modeled; the theorems about `resolve_device` take the
parse outcome as a hypothesis.) -/
def parseInt (s : String) : Option Int :=
  match s.data with
  | '-' :: rest => (digitsVal? rest).map (fun m => -(m : Int))
  | '+' :: rest => (digitsVal? rest).map (fun m => (m : Int))
  | cs => (digitsVal? cs).map (fun m => (m : Int))

/-- Python's substring test `needle in hay` on lists of characters. -/
def isSubstrOf (needle hay : List Char) : Bool :=
  hay.tails.any (fun t => needle.isPrefixOf t)

/-- Python `str.lower()` on the characters of a string (ASCII case folding;
full Unicode lowering is not modeled). -/
def lowerStr (s : String) : List Char := s.data.map Char.toLower

/-- The name-match test of the `except ValueError` branch of `resolve_device`:
`camera.name and device_input.lower() in camera.name.lower()`.  A `None` or
empty name is falsy in Python, so such descriptors are skipped. -/
def nameMatches (device_input : String) (c : Camera) : Bool :=
  match c.name with
  | none => false
  | some nm => (nm != "") && isSubstrOf (lowerStr device_input) (lowerStr nm)

/-- Embeds `resolve_device(device_input)` of `timelapse.py`, with the camera
catalog returned by `enumerate_cameras()` passed explicitly.  Mirrors the
source: empty catalog fails first; an integer selector is matched against
device ids (`camera.index`) and then used as a positional index; a non-integer
selector is a case-insensitive substring match on names, first match wins. -/
def resolve_device (device_input : String) (cameras : List Camera) :
    Except ResolveError Nat :=
  if cameras.isEmpty then
    .error (.noDevicesFound "No cameras found.")
  else
    match parseInt device_input with
    | some n =>
      match cameras.find? (fun c => (c.index : Int) == n) with
      | some c => .ok c.index
      | none =>
        if h : 0 ≤ n ∧ n < (cameras.length : Int) then
          .ok (cameras.get ⟨n.toNat, by omega⟩).index
        else
          .error (.deviceNotFound
            ("Device \x27" ++ device_input ++
              "\x27 not found. Use \x27timelapse devices\x27 to list available cameras."))
    | none =>
      match cameras.find? (nameMatches device_input) with
      | some c => .ok c.index
      | none =>
        .error (.deviceNotFound
          ("No camera found matching \x27" ++ device_input ++
            "\x27. Use \x27timelapse devices\x27 to list available cameras."))

/-- The ASCII character of a decimal digit (`d < 10` at every use site). -/
def digitChar (d : Nat) : Char := Char.ofNat (48 + d)

/-- The `w` least-significant decimal digits of `n`, most significant first.
For `n < 10 ^ w` this is exactly the width-`w` zero-padded decimal expansion. -/
def padDigits : Nat → Nat → List Nat
  | 0, _ => []
  | w + 1, n => n / 10 ^ w :: padDigits w (n % 10 ^ w)

/-- Embeds the filename expression `f"frame_{frame_count:06d}.jpg"` of the
recording loop.  Faithful to Python's `%06d` for `k ≤ 999999`, the range the
claims quantify over (Python widens beyond six digits for larger values, which
this fixed-width embedding does not model). -/
def frameFilename (k : Nat) : String :=
  ⟨"frame_".data ++ (padDigits 6 k).map digitChar ++ ".jpg".data⟩

/-- How one pass through the recording loop of `start` can end. -/
inductive LoopExit where
  /-- `stop_recording["flag"]` observed true at the top of the loop. -/
  | operatorStop
  /-- `cap.read()` returned `ret = False`: `break` after the error echo. -/
  | captureFailure
  /-- `time.sleep(interval)` raised `ValueError` (negative interval); the
  exception escapes the `try` block. -/
  | sleepError
deriving DecidableEq

/-- The Python signal handler installed by `start`: it only ever sets the
shared flag to `True`. -/
def signal_handler (_stop_recording : Bool) : Bool := true

/-- Embeds the `while not stop_recording["flag"]` loop of `start`
(lines 154–168).  `stopFlag k` is the flag value observed at the top of
iteration `k`, `readOk k` the `ret` of that iteration's `cap.read()`,
`writeOk k` the (discarded) return value of `cv2.imwrite`.  `k` is the
current `frame_count`; the result is the exit cause, the final
`frame_count`, and the `(filename, imwrite-result)` trace of attempted
writes.  `fuel` bounds the number of iterations; `none` means the loop
was still running after `fuel` iterations. -/
def captureLoop (interval : Rat) (stopFlag readOk writeOk : Nat → Bool) :
    Nat → Nat → Option (LoopExit × Nat × List (String × Bool))
  | 0, _ => none
  | fuel + 1, k =>
    if stopFlag k then some (.operatorStop, k, [])
    else if readOk k then
      if interval < 0 then some (.sleepError, k + 1, [(frameFilename k, writeOk k)])
      else
        match captureLoop interval stopFlag readOk writeOk fuel (k + 1) with
        | none => none
        | some (ex, n, fs) => some (ex, n, (frameFilename k, writeOk k) :: fs)
    else some (.captureFailure, k, [])

/-- Observable outcome of one run of the `start` command. -/
structure StartOutcome where
  /-- Process exit code. -/
  exitCode : Nat
  /-- Whether the device handle was successfully opened (`cap.isOpened()`). -/
  opened : Bool
  /-- Number of `cap.release()` calls performed. -/
  releases : Nat
  /-- The frame count echoed by the `finally` block
  (`Recording stopped. Captured {frame_count} frame(s).`), `none` if the
  process terminated before reaching that echo. -/
  reportedFrames : Option Nat
  /-- How the recording loop exited, `none` if it was never entered. -/
  reason : Option LoopExit
  /-- Final `frame_count`. -/
  frames : Nat
  /-- The `(filename, imwrite-result)` trace of attempted frame writes. -/
  files : List (String × Bool)
deriving DecidableEq

/-- Embeds the `start` command of `timelapse.py`: resolve the device (a
`ClickException` makes click print the message and exit 1), open it
(`cap.isOpened()` false echoes an error and calls `sys.exit(1)` with no
`release`), then run the recording loop inside `try/finally`; the `finally`
block releases the handle once and echoes the captured frame count on every
loop exit.  A normal loop exit (operator stop or capture failure) falls off
the end of the command, exit code 0; a `ValueError` escaping from
`time.sleep` still runs the `finally` block and then terminates the process
with exit code 1. -/
def start (cameras : List Camera) (device : String) (interval : Rat)
    (openOk : Bool) (stopFlag readOk writeOk : Nat → Bool) (fuel : Nat) :
    Option StartOutcome :=
  match resolve_device device cameras with
  | .error _ =>
    some { exitCode := 1, opened := false, releases := 0, reportedFrames := none,
           reason := none, frames := 0, files := [] }
  | .ok _ =>
    if openOk then
      match captureLoop interval stopFlag readOk writeOk fuel 0 with
      | none => none
      | some (ex, n, fs) =>
        some { exitCode := if ex = .sleepError then 1 else 0, opened := true,
               releases := 1, reportedFrames := some n, reason := some ex,
               frames := n, files := fs }
    else
      some { exitCode := 1, opened := false, releases := 0, reportedFrames := none,
             reason := none, frames := 0, files := [] }

/-- Projection of a loop result that forgets the `imwrite` return values. -/
def loopCore (r : LoopExit × Nat × List (String × Bool)) :
    LoopExit × Nat × List String :=
  (r.1, r.2.1, r.2.2.map Prod.fst)

/-- `List.find?` returns the element at the first index satisfying the
predicate. -/
theorem find?_of_first {α : Type} (p : α → Bool) :
    ∀ (l : List α) (i : Nat) (hi : i < l.length),
      p (l.get ⟨i, hi⟩) = true →
      (∀ (j : Nat) (hj : j < i), p (l.get ⟨j, Nat.lt_trans hj hi⟩) = false) →
      l.find? p = some (l.get ⟨i, hi⟩) := by
  intro l
  induction l with
  | nil => intro i hi; exact absurd hi (by simp)
  | cons a l ih =>
    intro i hi hp hfirst
    match i with
    | 0 => exact List.find?_cons_of_pos _ hp
    | k + 1 =>
      have ha : p a = false := hfirst 0 (Nat.succ_pos k)
      rw [List.find?_cons_of_neg _ (by simp [ha])]
      exact ih k (Nat.lt_of_succ_lt_succ hi) hp
        (fun j hj => hfirst (j + 1) (Nat.succ_lt_succ hj))

/-- A non-empty list is not `isEmpty`. -/
theorem isEmpty_false_of_ne_nil {α : Type} {l : List α} (h : l ≠ []) :
    l.isEmpty = false := by
  cases l with
  | nil => exact absurd rfl h
  | cons a l => rfl

/-- C1: for a non-empty catalog and an integer selector `n`, a deviceId match
takes precedence (returning `n` itself), otherwise an in-range `n` is a
positional lookup, otherwise resolution fails with `DeviceNotFound` and the
message embeds the original selector string. -/
theorem resolve_int_selector_correct (dev : String) (cameras : List Camera)
    (n : Int) (hne : cameras ≠ []) (hp : parseInt dev = some n) :
    ((∃ c ∈ cameras, (c.index : Int) = n) →
        resolve_device dev cameras = .ok n.toNat) ∧
    ((∀ c ∈ cameras, (c.index : Int) ≠ n) →
      ∀ (_ : 0 ≤ n) (_ : n < (cameras.length : Int)),
        ∃ h : n.toNat < cameras.length,
          resolve_device dev cameras = .ok (cameras.get ⟨n.toNat, h⟩).index) ∧
    ((∀ c ∈ cameras, (c.index : Int) ≠ n) →
      ¬ (0 ≤ n ∧ n < (cameras.length : Int)) →
        ∃ pre post, resolve_device dev cameras =
          .error (.deviceNotFound (pre ++ dev ++ post))) := by
  have hie : cameras.isEmpty = false := isEmpty_false_of_ne_nil hne
  refine ⟨?_, ?_, ?_⟩
  · rintro ⟨c, hc, hcn⟩
    have hfind : cameras.find? (fun c => (c.index : Int) == n) ≠ none := by
      intro hnone
      have := List.find?_eq_none.mp hnone c hc
      simp [hcn] at this
    cases hf : cameras.find? (fun c => (c.index : Int) == n) with
    | none => exact absurd hf hfind
    | some c₀ =>
      have hpc₀ := List.find?_some hf
      simp only [beq_iff_eq] at hpc₀
      have : c₀.index = n.toNat := by omega
      simp [resolve_device, hie, hp, hf, this]
  · intro hno hn hlt
    have hf : cameras.find? (fun c => (c.index : Int) == n) = none := by
      refine List.find?_eq_none.mpr (fun c hc => ?_)
      simp [hno c hc]
    have hlen : n.toNat < cameras.length := by omega
    refine ⟨hlen, ?_⟩
    simp [resolve_device, hie, hp, hf]
    rw [dif_pos ⟨hn, hlt⟩]
  · intro hno hout
    have hf : cameras.find? (fun c => (c.index : Int) == n) = none := by
      refine List.find?_eq_none.mpr (fun c hc => ?_)
      simp [hno c hc]
    refine ⟨"Device \x27",
      "\x27 not found. Use \x27timelapse devices\x27 to list available cameras.", ?_⟩
    simp [resolve_device, hie, hp, hf]
    omega

/-- C1 witness: in the two-camera catalog of the spec's scenario, the selector
`"55"` resolves by deviceId match to `55` even though `55` is out of range as
a positional index. -/
theorem resolve_int_selector_witness :
    resolve_device "55"
      [⟨1200, some "Anker PowerConf C200"⟩, ⟨55, some "FaceTime HD"⟩] =
      .ok ((55 : Int).toNat) :=
  (resolve_int_selector_correct "55"
      [⟨1200, some "Anker PowerConf C200"⟩, ⟨55, some "FaceTime HD"⟩] 55
      (by decide) (by decide)).1
    ⟨⟨55, some "FaceTime HD"⟩, by decide, by decide⟩

/-- C7: for an empty catalog, resolution of every selector fails with the
distinct `NoDevicesFound` error (`"No cameras found."`), before any matching
is attempted — never with `DeviceNotFound`. -/
theorem resolve_empty_catalog (dev : String) :
    resolve_device dev [] = .error (.noDevicesFound "No cameras found.") := rfl

/-- C8: for a non-empty catalog and a selector that does not parse as an
integer, resolution returns the deviceId of the first descriptor (in catalog
order) whose name matches case-insensitively as a substring, descriptors with
empty or absent names being skipped; if none matches it fails with
`DeviceNotFound` and the message embeds the selector. -/
theorem resolve_name_selector_correct (dev : String) (cameras : List Camera)
    (hne : cameras ≠ []) (hp : parseInt dev = none) :
    (∀ (i : Nat) (hi : i < cameras.length),
        nameMatches dev (cameras.get ⟨i, hi⟩) = true →
        (∀ (j : Nat) (hj : j < i),
          nameMatches dev (cameras.get ⟨j, Nat.lt_trans hj hi⟩) = false) →
        resolve_device dev cameras = .ok (cameras.get ⟨i, hi⟩).index) ∧
    ((∀ c ∈ cameras, nameMatches dev c = false) →
        ∃ pre post, resolve_device dev cameras =
          .error (.deviceNotFound (pre ++ dev ++ post))) := by
  have hie : cameras.isEmpty = false := isEmpty_false_of_ne_nil hne
  constructor
  · intro i hi hmatch hfirst
    have hf := find?_of_first (nameMatches dev) cameras i hi hmatch hfirst
    simp [resolve_device, hie, hp, hf]
  · intro hno
    have hf : cameras.find? (nameMatches dev) = none := by
      refine List.find?_eq_none.mpr (fun c hc => ?_)
      simp [hno c hc]
    refine ⟨"No camera found matching \x27",
      "\x27. Use \x27timelapse devices\x27 to list available cameras.", ?_⟩
    simp [resolve_device, hie, hp, hf]

/-- C8 witness: the lowercase selector `"anker"` resolves against a
descriptor named `"Anker PowerConf C200"` (case-insensitive substring
match). -/
theorem resolve_name_selector_witness :
    resolve_device "anker" [⟨1201, some "Anker PowerConf C200"⟩] = .ok 1201 :=
  (resolve_name_selector_correct "anker" [⟨1201, some "Anker PowerConf C200"⟩]
      (by decide) (by decide)).1 0 (by decide) (by decide)
    (fun _ hj => absurd hj (Nat.not_lt_zero _))

/-- `padDigits w n` always has length `w`. -/
theorem padDigits_length : ∀ (w n : Nat), (padDigits w n).length = w
  | 0, _ => rfl
  | w + 1, n => by simp [padDigits, padDigits_length w]

/-- For `n < 10 ^ w`, every entry of `padDigits w n` is a decimal digit. -/
theorem padDigits_all_lt : ∀ (w n : Nat), n < 10 ^ w →
    ∀ d ∈ padDigits w n, d < 10
  | 0, n, _ => by simp [padDigits]
  | w + 1, n, hn => by
    simp only [padDigits, List.mem_cons]
    rintro d (rfl | hd)
    · exact Nat.div_lt_of_lt_mul (by rw [← pow_succ]; exact hn)
    · exact padDigits_all_lt w _ (Nat.mod_lt _ (pow_pos (by norm_num) w)) d hd

/-- Fixed-width decimal digit lists compare lexicographically like their
values. -/
theorem padDigits_mono : ∀ (w m n : Nat), m < 10 ^ w → n < 10 ^ w → m < n →
    List.Lex (· < ·) (padDigits w m) (padDigits w n)
  | 0, m, n, hm, hn, hmn => by simp at hm hn; omega
  | w + 1, m, n, hm, hn, hmn => by
    have hp : 0 < 10 ^ w := pow_pos (by norm_num) w
    have h1 : 10 ^ w * (m / 10 ^ w) + m % 10 ^ w = m := Nat.div_add_mod m (10 ^ w)
    have h2 : 10 ^ w * (n / 10 ^ w) + n % 10 ^ w = n := Nat.div_add_mod n (10 ^ w)
    have hmr : m % 10 ^ w < 10 ^ w := Nat.mod_lt _ hp
    have hnr : n % 10 ^ w < 10 ^ w := Nat.mod_lt _ hp
    rcases Nat.lt_trichotomy (m / 10 ^ w) (n / 10 ^ w) with h | h | h
    · exact List.Lex.rel h
    · rw [← h] at h2
      simp only [padDigits, h]
      exact List.Lex.cons (padDigits_mono w _ _ hmr hnr (by omega))
    · exfalso
      have hs : 10 ^ w * (n / 10 ^ w + 1) ≤ 10 ^ w * (m / 10 ^ w) :=
        Nat.mul_le_mul_left _ h
      rw [Nat.mul_add, Nat.mul_one] at hs
      omega

/-- `digitChar` is strictly monotone on decimal digits. -/
theorem digitChar_lt_digitChar : ∀ d < 10, ∀ e < 10, d < e →
    digitChar d < digitChar e := by decide

/-- Mapping digit lists to ASCII characters preserves strict lexicographic
order. -/
theorem lex_map_digitChar : ∀ {l₁ l₂ : List Nat}, List.Lex (· < ·) l₁ l₂ →
    (∀ d ∈ l₁, d < 10) → (∀ d ∈ l₂, d < 10) →
    List.Lex (· < ·) (l₁.map digitChar) (l₂.map digitChar) := by
  intro l₁ l₂ h
  induction h with
  | nil =>
    intro _ _
    simp only [List.map]
    exact List.Lex.nil
  | @cons a t₁ t₂ h ih =>
    intro h1 h2
    simp only [List.map]
    exact List.Lex.cons (ih (fun d hd => h1 d (List.mem_cons_of_mem a hd))
      (fun d hd => h2 d (List.mem_cons_of_mem a hd)))
  | @rel a t₁ b t₂ hab =>
    intro h1 h2
    simp only [List.map]
    exact List.Lex.rel (digitChar_lt_digitChar a (h1 a (List.mem_cons_self a t₁))
      b (h2 b (List.mem_cons_self b t₂)) hab)

/-- Lexicographic comparison of equal-length lists is preserved by appending
arbitrary suffixes. -/
theorem lex_append_of_length_eq {α : Type} {R : α → α → Prop} :
    ∀ {l₁ l₂ : List α}, List.Lex R l₁ l₂ → l₁.length = l₂.length →
      ∀ (s t : List α), List.Lex R (l₁ ++ s) (l₂ ++ t) := by
  intro l₁ l₂ h
  induction h with
  | nil => intro hlen; simp at hlen
  | @cons _ t₁ t₂ h ih =>
    intro hlen s t
    exact List.Lex.cons (ih (by simpa using hlen) s t)
  | @rel _ t₁ _ t₂ hab =>
    intro _ s t
    exact List.Lex.rel hab

/-- Lexicographic comparison is preserved by prepending a common prefix. -/
theorem lex_append_left {α : Type} {R : α → α → Prop} {l₁ l₂ : List α}
    (h : List.Lex R l₁ l₂) : ∀ (p : List α), List.Lex R (p ++ l₁) (p ++ l₂)
  | [] => h
  | _ :: p => List.Lex.cons (lex_append_left h p)

/-- C2: frame filenames are the fixed-width 6-digit zero-padded encodings of
the frame index (index 7 gives `frame_000007.jpg`, 0 gives
`frame_000000.jpg`, 999999 gives `frame_999999.jpg`), and for indices
`i < j ≤ 999999` the filename of `i` is strictly smaller than that of `j` in
lexicographic order, so filename order matches capture order. -/
theorem frame_filename_zero_padded_lex :
    (frameFilename 0 = "frame_000000.jpg" ∧ frameFilename 7 = "frame_000007.jpg" ∧
      frameFilename 999999 = "frame_999999.jpg") ∧
    ∀ (i j : Nat), i < j → j ≤ 999999 →
      List.Lex (· < ·) (frameFilename i).data (frameFilename j).data := by
  refine ⟨⟨by decide, by decide, by decide⟩, ?_⟩
  intro i j hij hj
  have hpow : (10 : Nat) ^ 6 = 1000000 := by norm_num
  have hi6 : i < 10 ^ 6 := by omega
  have hj6 : j < 10 ^ 6 := by omega
  show List.Lex (· < ·)
    ("frame_".data ++ (padDigits 6 i).map digitChar ++ ".jpg".data)
    ("frame_".data ++ (padDigits 6 j).map digitChar ++ ".jpg".data)
  rw [List.append_assoc, List.append_assoc]
  refine lex_append_left ?_ "frame_".data
  refine lex_append_of_length_eq ?_ ?_ _ _
  · exact lex_map_digitChar (padDigits_mono 6 i j hi6 hj6 hij)
      (padDigits_all_lt 6 i hi6) (padDigits_all_lt 6 j hj6)
  · simp [padDigits_length]

/-- C2 witness: concrete instance of the lexicographic ordering at indices
3 < 7. -/
theorem frame_filename_zero_padded_lex_witness :
    List.Lex (· < ·) (frameFilename 3).data (frameFilename 7).data :=
  frame_filename_zero_padded_lex.2 3 7 (by decide) (by decide)

/-- The installed signal handler only ever raises the stop flag, so a flag
trajectory driven by it is monotone: once up, it stays up until the loop
observes it at the top of an iteration. -/
theorem signal_handler_sets_flag (b : Bool) : signal_handler b = true := rfl

/-- The recording loop never decreases `frame_count`. -/
theorem captureLoop_le (interval : Rat) (stopFlag readOk writeOk : Nat → Bool) :
    ∀ (fuel k : Nat) (ex : LoopExit) (n : Nat) (fs : List (String × Bool)),
      captureLoop interval stopFlag readOk writeOk fuel k = some (ex, n, fs) →
      k ≤ n := by
  intro fuel
  induction fuel with
  | zero => intro k ex n fs h; simp [captureLoop] at h
  | succ fuel ih =>
    intro k ex n fs h
    simp only [captureLoop] at h
    split at h
    · obtain ⟨h1, h2, h3⟩ := Prod.mk.injEq .. ▸ Option.some.inj h
      omega
    · split at h
      · split at h
        · obtain ⟨h1, h2, h3⟩ := Prod.mk.injEq .. ▸ Option.some.inj h
          omega
        · match hrec : captureLoop interval stopFlag readOk writeOk fuel (k + 1) with
          | none => rw [hrec] at h; exact absurd h (by simp)
          | some (ex', n', fs') =>
            rw [hrec] at h
            simp only [Option.some.injEq, Prod.mk.injEq] at h
            obtain ⟨h1, h2, h3⟩ := h
            have := ih (k + 1) ex' n' fs' hrec
            omega
      · obtain ⟨h1, h2, h3⟩ := Prod.mk.injEq .. ▸ Option.some.inj h
        omega

/-- When the stop flag stays down and the `j`-th `cap.read()` is the first to
fail, the loop exits with `captureFailure` at `frame_count = j`, having
written exactly the frames before `j`. -/
theorem captureLoop_capture_failure (interval : Rat)
    (stopFlag readOk writeOk : Nat → Bool) (hint : 0 ≤ interval) :
    ∀ (fuel k j : Nat), k ≤ j → j < k + fuel →
      (∀ i, k ≤ i → i ≤ j → stopFlag i = false) →
      (∀ i, k ≤ i → i < j → readOk i = true) →
      readOk j = false →
      captureLoop interval stopFlag readOk writeOk fuel k =
        some (.captureFailure, j,
          (List.range' k (j - k)).map (fun i => (frameFilename i, writeOk i))) := by
  intro fuel
  induction fuel with
  | zero => intro k j hkj hfuel _ _ _; omega
  | succ fuel ih =>
    intro k j hkj hfuel hstop hread hfail
    have hs : stopFlag k = false := hstop k le_rfl hkj
    by_cases hkj' : k = j
    · subst hkj'
      simp [captureLoop, hs, hfail, List.range']
    · have hklt : k < j := lt_of_le_of_ne hkj hkj'
      have hr : readOk k = true := hread k le_rfl hklt
      have hni : ¬ interval < 0 := not_lt.2 hint
      have hrec := ih (k + 1) j hklt (by omega)
        (fun i h1 h2 => hstop i (by omega) h2)
        (fun i h1 h2 => hread i (by omega) h2) hfail
      have hjk : j - k = (j - (k + 1)) + 1 := by omega
      simp only [captureLoop, hs, hr, hni, if_false, if_true, Bool.false_eq_true,
        hrec, hjk, List.range', List.map_cons]

/-- If the stop flag is up by iteration `j` and no read fails, the loop exits
with `operatorStop` no later than `frame_count = j`. -/
theorem captureLoop_operator_stop (interval : Rat)
    (stopFlag readOk writeOk : Nat → Bool) (hint : 0 ≤ interval)
    (hread : ∀ i, readOk i = true) :
    ∀ (fuel k j : Nat), k ≤ j → j < k + fuel → stopFlag j = true →
      ∃ n fs, captureLoop interval stopFlag readOk writeOk fuel k =
        some (.operatorStop, n, fs) ∧ k ≤ n ∧ n ≤ j := by
  intro fuel
  induction fuel with
  | zero => intro k j hkj hfuel _; omega
  | succ fuel ih =>
    intro k j hkj hfuel hj
    by_cases hs : stopFlag k = true
    · exact ⟨k, [], by simp [captureLoop, hs], le_rfl, hkj⟩
    · have hkj' : k ≠ j := fun h => hs (h ▸ hj)
      have hklt : k < j := lt_of_le_of_ne hkj hkj'
      have hni : ¬ interval < 0 := not_lt.2 hint
      obtain ⟨n, fs, heq, hkn, hnj⟩ := ih (k + 1) j hklt (by omega) hj
      refine ⟨n, (frameFilename k, writeOk k) :: fs, ?_, by omega, hnj⟩
      simp only [captureLoop, hs, hread k, hni, if_false, if_true,
        Bool.false_eq_true, heq]

/-- Projection of a start outcome that forgets the `imwrite` return values
recorded in the write trace. -/
def outcomeCore (o : StartOutcome) :
    Nat × Bool × Nat × Option Nat × Option LoopExit × Nat × List String :=
  (o.exitCode, o.opened, o.releases, o.reportedFrames, o.reason, o.frames,
    o.files.map Prod.fst)

/-- The loop's control flow and filenames do not depend on the `imwrite`
results. -/
theorem captureLoop_write_independent (interval : Rat)
    (stopFlag readOk : Nat → Bool) :
    ∀ (w₁ w₂ : Nat → Bool) (fuel k : Nat),
      (captureLoop interval stopFlag readOk w₁ fuel k).map loopCore =
      (captureLoop interval stopFlag readOk w₂ fuel k).map loopCore := by
  intro w₁ w₂ fuel
  induction fuel with
  | zero => intro k; simp [captureLoop]
  | succ fuel ih =>
    intro k
    simp only [captureLoop]
    by_cases hs : stopFlag k = true
    · simp [hs]
    · simp only [Bool.not_eq_true] at hs
      simp only [hs, Bool.false_eq_true, if_false]
      by_cases hr : readOk k = true
      · simp only [hr, if_true]
        by_cases hneg : interval < 0
        · simp [hneg, loopCore]
        · simp only [hneg, if_false]
          have hih := ih (k + 1)
          cases h₁ : captureLoop interval stopFlag readOk w₁ fuel (k + 1) with
          | none =>
            cases h₂ : captureLoop interval stopFlag readOk w₂ fuel (k + 1) with
            | none => simp
            | some r₂ => rw [h₁, h₂] at hih; simp at hih
          | some r₁ =>
            cases h₂ : captureLoop interval stopFlag readOk w₂ fuel (k + 1) with
            | none => rw [h₁, h₂] at hih; simp at hih
            | some r₂ =>
              rw [h₁, h₂] at hih
              obtain ⟨e₁, n₁, f₁⟩ := r₁
              obtain ⟨e₂, n₂, f₂⟩ := r₂
              simp only [Option.map_some', loopCore, Option.some.injEq,
                Prod.mk.injEq, List.map_cons, List.cons.injEq, true_and] at hih ⊢
              exact hih
      · simp [hr]

/-- The write trace of a terminated loop run records exactly one attempted
write per captured frame, in index order, with the filename of the frame and
the (ignored) `imwrite` result. -/
theorem captureLoop_files (interval : Rat) (stopFlag readOk w : Nat → Bool) :
    ∀ (fuel k : Nat) (ex : LoopExit) (n : Nat) (fs : List (String × Bool)),
      captureLoop interval stopFlag readOk w fuel k = some (ex, n, fs) →
      fs = (List.range' k (n - k)).map (fun i => (frameFilename i, w i)) := by
  intro fuel
  induction fuel with
  | zero => intro k ex n fs h; simp [captureLoop] at h
  | succ fuel ih =>
    intro k ex n fs h
    simp only [captureLoop] at h
    by_cases hs : stopFlag k = true
    · rw [if_pos hs] at h
      simp only [Option.some.injEq, Prod.mk.injEq] at h
      obtain ⟨-, h2, h3⟩ := h
      rw [← h3, ← h2]
      simp [List.range']
    · rw [if_neg hs] at h
      by_cases hr : readOk k = true
      · rw [if_pos hr] at h
        by_cases hneg : interval < 0
        · rw [if_pos hneg] at h
          simp only [Option.some.injEq, Prod.mk.injEq] at h
          obtain ⟨-, h2, h3⟩ := h
          rw [← h3, ← h2]
          have h1 : k + 1 - k = 1 := by omega
          rw [h1]
          simp [List.range']
        · rw [if_neg hneg] at h
          match hrec : captureLoop interval stopFlag readOk w fuel (k + 1) with
          | none => rw [hrec] at h; exact absurd h (by simp)
          | some (ex', n', fs') =>
            rw [hrec] at h
            simp only [Option.some.injEq, Prod.mk.injEq] at h
            obtain ⟨h1, h2, h3⟩ := h
            rw [← h3, ← h2]
            have hle := captureLoop_le interval stopFlag readOk w fuel (k + 1)
              ex' n' fs' hrec
            have hfs' := ih (k + 1) ex' n' fs' hrec
            have hn : n' - k = (n' - (k + 1)) + 1 := by omega
            rw [hn]
            simp only [List.range', List.map_cons]
            rw [← hfs']
      · rw [if_neg hr] at h
        simp only [Option.some.injEq, Prod.mk.injEq] at h
        obtain ⟨-, h2, h3⟩ := h
        rw [← h3, ← h2]
        simp [List.range']

/-- C3 (amended): if the stop flag stays down, the first `k` reads succeed
and the `(k+1)`-th fails, the session ends with `captureFailure`, exactly `k`
frames were persisted (with their zero-padded filenames, in order), the
captured count `k` is reported by the `finally` block, the handle is released
exactly once — and the process exits with code 0 (the `break` after the error
echo falls off the end of the command; there is no `sys.exit` on this path,
so the exit code is not nonzero as claimed). -/
theorem capture_failure_termination (cameras : List Camera) (dev : String)
    (interval : Rat) (stopFlag readOk writeOk : Nat → Bool) (fuel k idx : Nat)
    (hres : resolve_device dev cameras = .ok idx) (hint : 0 ≤ interval)
    (hstop : ∀ i, i ≤ k → stopFlag i = false)
    (hread : ∀ i, i < k → readOk i = true)
    (hfail : readOk k = false) (hfuel : k < fuel) :
    start cameras dev interval true stopFlag readOk writeOk fuel =
      some ⟨0, true, 1, some k, some .captureFailure, k,
        (List.range k).map (fun i => (frameFilename i, writeOk i))⟩ := by
  have hloop := captureLoop_capture_failure interval stopFlag readOk writeOk hint
    fuel 0 k (Nat.zero_le k) (by omega) (fun i _ h2 => hstop i h2)
    (fun i _ h2 => hread i h2) hfail
  simp [start, hres, hloop, List.range_eq_range']

/-- C3 witness: a device whose 5th read fails after 4 successes ends the
session with `captureFailure`, 4 frames persisted and reported, one release,
exit code 0. -/
theorem capture_failure_termination_witness :
    start [⟨0, some "FaceTime HD"⟩] "0" 1 true (fun _ => false)
      (fun i => decide (i < 4)) (fun _ => true) 10 =
      some ⟨0, true, 1, some 4, some .captureFailure, 4,
        (List.range 4).map (fun i => (frameFilename i, true))⟩ :=
  capture_failure_termination [⟨0, some "FaceTime HD"⟩] "0" 1 (fun _ => false)
    (fun i => decide (i < 4)) (fun _ => true) 10 4 0 (by decide) (by decide)
    (fun _ _ => rfl) (fun _ h => decide_eq_true h) (by decide) (by decide)

/-- C3 counterexample: in exactly the claimed scenario (read fails on the 5th
acquisition after 4 successes) the process exit code is 0, not nonzero as the
claim states. -/
theorem capture_failure_exit_zero_cex :
    (start [⟨0, some "FaceTime HD"⟩] "0" 1 true (fun _ => false)
      (fun i => decide (i < 4)) (fun _ => true) 10).map
        (fun o => (o.reason, o.frames, o.reportedFrames, o.releases, o.exitCode)) =
      some (some .captureFailure, 4, some 4, 1, 0) := by decide

/-- C4 (amended): a negative `--interval` is accepted by argument parsing
(`type=float`, no validation); the session is created, the device opened, one
frame is captured and persisted, and only then does the first
`time.sleep(interval)` raise `ValueError`, after which the handle is released
once, the frame count is reported, and the process exits nonzero with the
uncaught exception. -/
theorem negative_interval_first_sleep_error (cameras : List Camera)
    (dev : String) (interval : Rat) (stopFlag readOk writeOk : Nat → Bool)
    (fuel idx : Nat) (hres : resolve_device dev cameras = .ok idx)
    (hneg : interval < 0) (hstop : stopFlag 0 = false)
    (hread : readOk 0 = true) (hfuel : 0 < fuel) :
    start cameras dev interval true stopFlag readOk writeOk fuel =
      some ⟨1, true, 1, some 1, some .sleepError, 1,
        [(frameFilename 0, writeOk 0)]⟩ := by
  obtain ⟨f, rfl⟩ : ∃ f, fuel = f + 1 := ⟨fuel - 1, by omega⟩
  simp [start, hres, captureLoop, hstop, hread, hneg]

/-- C4 witness: concrete run with `--interval -1`. -/
theorem negative_interval_first_sleep_error_witness :
    start [⟨0, some "FaceTime HD"⟩] "0" (-1) true (fun _ => false)
      (fun _ => true) (fun _ => true) 10 =
      some ⟨1, true, 1, some 1, some .sleepError, 1, [(frameFilename 0, true)]⟩ :=
  negative_interval_first_sleep_error [⟨0, some "FaceTime HD"⟩] "0" (-1)
    (fun _ => false) (fun _ => true) (fun _ => true) 10 0 (by decide)
    (by decide) rfl rfl (by decide)

/-- C4 counterexample: with `--interval -1` the device IS opened, a frame IS
captured and persisted, and only then does the process fail — contradicting
the claim that the error is reported immediately with no session created, no
device opened and no frames captured or persisted. -/
theorem negative_interval_cex :
    (start [⟨0, some "FaceTime HD"⟩] "0" (-1) true (fun _ => false)
      (fun _ => true) (fun _ => true) 10).map
        (fun o => (o.opened, o.frames, o.files.length, o.exitCode)) =
      some (true, 1, 1, 1) := by decide

/-- C5: whenever the device handle was successfully opened and the recording
loop terminated — operator stop, capture failure, or an error raised inside
the loop body (the negative-interval `ValueError`) — `cap.release()` runs
exactly once, never zero times and never twice. -/
theorem device_released_exactly_once (cameras : List Camera) (dev : String)
    (interval : Rat) (stopFlag readOk writeOk : Nat → Bool) (fuel idx : Nat)
    (o : StartOutcome) (hres : resolve_device dev cameras = .ok idx)
    (h : start cameras dev interval true stopFlag readOk writeOk fuel = some o) :
    o.releases = 1 ∧ o.reason.isSome = true := by
  simp only [start, hres, if_true] at h
  cases hc : captureLoop interval stopFlag readOk writeOk fuel 0 with
  | none => rw [hc] at h; exact absurd h (by simp)
  | some r =>
    obtain ⟨ex, n, fs⟩ := r
    rw [hc] at h
    have ho := Option.some.inj h
    rw [← ho]
    exact ⟨rfl, rfl⟩

/-- C5 witness: a session stopped by the operator on the first check has
exactly one release. -/
theorem device_released_exactly_once_witness :
    (⟨0, true, 1, some 0, some .operatorStop, 0, []⟩ : StartOutcome).releases = 1 ∧
    (⟨0, true, 1, some 0, some .operatorStop, 0, []⟩ : StartOutcome).reason.isSome
      = true :=
  device_released_exactly_once [⟨0, none⟩] "0" 1 (fun _ => true) (fun _ => true)
    (fun _ => true) 1 0 ⟨0, true, 1, some 0, some .operatorStop, 0, []⟩
    (by decide) (by decide)

/-- C6: the stop flag is sampled only at the top of each loop iteration, so
if cancellation is requested during iteration `q` (the flag is observably up
by the check opening iteration `q + 1`) and no read fails, the session
terminates with `operatorStop` having completed at most iteration `q` — at
most one in-flight frame past the cancellation point. -/
theorem operator_stop_at_most_one_frame (cameras : List Camera) (dev : String)
    (interval : Rat) (stopFlag readOk writeOk : Nat → Bool) (fuel q idx : Nat)
    (hres : resolve_device dev cameras = .ok idx) (hint : 0 ≤ interval)
    (hread : ∀ i, readOk i = true) (hstop : stopFlag (q + 1) = true)
    (hfuel : q + 1 < fuel) :
    ∃ n fs, start cameras dev interval true stopFlag readOk writeOk fuel =
      some ⟨0, true, 1, some n, some .operatorStop, n, fs⟩ ∧ n ≤ q + 1 := by
  obtain ⟨n, fs, heq, h0n, hnq⟩ := captureLoop_operator_stop interval stopFlag
    readOk writeOk hint hread fuel 0 (q + 1) (Nat.zero_le _) (by omega) hstop
  refine ⟨n, fs, ?_, hnq⟩
  simp [start, hres, heq]

/-- C6 witness: a request arriving during iteration 0 (flag up from the
check at iteration 1 on) stops the session no more than one frame past the
cancellation point. -/
theorem operator_stop_at_most_one_frame_witness :
    ∃ n fs, start [⟨0, some "Cam"⟩] "0" 1 true (fun i => decide (0 < i))
      (fun _ => true) (fun _ => true) 5 =
      some ⟨0, true, 1, some n, some .operatorStop, n, fs⟩ ∧ n ≤ 0 + 1 :=
  operator_stop_at_most_one_frame [⟨0, some "Cam"⟩] "0" 1
    (fun i => decide (0 < i)) (fun _ => true) (fun _ => true) 5 0 0 (by decide)
    (by decide) (fun _ => rfl) (by decide) (by decide)

/-- C9 (amended): the frame count is reported (by the `finally` echo) on
every termination path of the recording loop — operator stop, capture
failure, in-loop error — but NOT on the early termination paths: a
resolution failure (`NoDevicesFound`/`DeviceNotFound`) or a device-open
failure exits nonzero without reporting any frame count. -/
theorem frame_count_reporting (cameras : List Camera) (dev : String)
    (interval : Rat) (stopFlag readOk writeOk : Nat → Bool) (fuel : Nat) :
    (∀ (e : ResolveError) (openOk : Bool),
        resolve_device dev cameras = .error e →
        start cameras dev interval openOk stopFlag readOk writeOk fuel =
          some ⟨1, false, 0, none, none, 0, []⟩) ∧
    (∀ idx : Nat, resolve_device dev cameras = .ok idx →
        start cameras dev interval false stopFlag readOk writeOk fuel =
          some ⟨1, false, 0, none, none, 0, []⟩) ∧
    (∀ o : StartOutcome,
        start cameras dev interval true stopFlag readOk writeOk fuel = some o →
        o.reason.isSome = true → o.reportedFrames = some o.frames) := by
  refine ⟨?_, ?_, ?_⟩
  · intro e openOk he
    simp [start, he]
  · intro idx hidx
    simp [start, hidx]
  · intro o h hr
    cases hres : resolve_device dev cameras with
    | error e =>
      simp only [start, hres] at h
      rw [← Option.some.inj h] at hr
      simp at hr
    | ok idx =>
      simp only [start, hres, if_true] at h
      cases hc : captureLoop interval stopFlag readOk writeOk fuel 0 with
      | none => rw [hc] at h; exact absurd h (by simp)
      | some r =>
        obtain ⟨ex, n, fs⟩ := r
        rw [hc] at h
        rw [← Option.some.inj h]

/-- C9 witness: a resolution failure (here `NoDevicesFound` on an empty
catalog) terminates with exit code 1 and no frame-count report. -/
theorem frame_count_reporting_witness :
    start [] "cam" 1 false (fun _ => false) (fun _ => true) (fun _ => true) 2 =
      some ⟨1, false, 0, none, none, 0, []⟩ :=
  (frame_count_reporting [] "cam" 1 (fun _ => false) (fun _ => true)
      (fun _ => true) 2).1 (.noDevicesFound "No cameras found.") false (by decide)

/-- C9 counterexample: on the `NoDevicesFound` termination path the process
reports no frame count at all (`reportedFrames = none`), contradicting the
claim that every termination path reports the total captured-frame count. -/
theorem frame_count_reporting_cex :
    (start [] "anker" 1 true (fun _ => false) (fun _ => true) (fun _ => true)
      3).map (fun o => (o.reportedFrames, o.exitCode)) = some (none, 1) := by
  decide

/-- C10: the result of `cv2.imwrite` is never inspected — the loop's control
flow, frame counts, exit cause, exit code and filenames are identical for any
two write-result oracles; and every successful read is followed by exactly
one attempted write (recorded in the trace with the ignored write result)
before `frame_count` is incremented, so a persist failure never terminates
the session nor changes its termination reason or exit code. -/
theorem persist_result_never_inspected (interval : Rat)
    (stopFlag readOk : Nat → Bool) :
    (∀ (w₁ w₂ : Nat → Bool) (fuel k : Nat),
        (captureLoop interval stopFlag readOk w₁ fuel k).map loopCore =
        (captureLoop interval stopFlag readOk w₂ fuel k).map loopCore) ∧
    (∀ (w : Nat → Bool) (fuel k : Nat) (ex : LoopExit) (n : Nat)
        (fs : List (String × Bool)),
        captureLoop interval stopFlag readOk w fuel k = some (ex, n, fs) →
        fs = (List.range' k (n - k)).map (fun i => (frameFilename i, w i))) ∧
    (∀ (cameras : List Camera) (dev : String) (openOk : Bool)
        (w₁ w₂ : Nat → Bool) (fuel : Nat),
        (start cameras dev interval openOk stopFlag readOk w₁ fuel).map
          outcomeCore =
        (start cameras dev interval openOk stopFlag readOk w₂ fuel).map
          outcomeCore) := by
  refine ⟨captureLoop_write_independent interval stopFlag readOk,
    captureLoop_files interval stopFlag readOk, ?_⟩
  intro cameras dev openOk w₁ w₂ fuel
  cases hres : resolve_device dev cameras with
  | error e => simp [start, hres]
  | ok idx =>
    cases openOk with
    | false => simp [start, hres]
    | true =>
      simp only [start, hres, if_true]
      have hih := captureLoop_write_independent interval stopFlag readOk w₁ w₂
        fuel 0
      cases h₁ : captureLoop interval stopFlag readOk w₁ fuel 0 with
      | none =>
        cases h₂ : captureLoop interval stopFlag readOk w₂ fuel 0 with
        | none => simp
        | some r₂ => rw [h₁, h₂] at hih; simp at hih
      | some r₁ =>
        cases h₂ : captureLoop interval stopFlag readOk w₂ fuel 0 with
        | none => rw [h₁, h₂] at hih; simp at hih
        | some r₂ =>
          rw [h₁, h₂] at hih
          obtain ⟨e₁, n₁, f₁⟩ := r₁
          obtain ⟨e₂, n₂, f₂⟩ := r₂
          simp only [Option.map_some', loopCore, Option.some.injEq,
            Prod.mk.injEq] at hih
          obtain ⟨he, hn, hf⟩ := hih
          simp only [Option.map_some', outcomeCore, Option.some.injEq,
            Prod.mk.injEq, he, hn, hf]

/-- C10 witness: a run whose every write reports failure still persists its
trace of attempted writes, one per captured frame, and proceeds. -/
theorem persist_result_never_inspected_witness :
    [(frameFilename 0, false), (frameFilename 1, false)] =
      (List.range' 0 2).map (fun i => (frameFilename i, false)) :=
  (persist_result_never_inspected 0 (fun _ => false) (fun i => decide (i < 2))).2.1
    (fun _ => false) 5 0 .captureFailure 2
    [(frameFilename 0, false), (frameFilename 1, false)] (by decide)

